import Mathlib

/-!
Verification of the mortgage payment calculator
(`src/utils/mortgageCalculator.ts`).

The calculator is a single pure function `calculateMortgage` from a record
of ten numeric loan/cost parameters to a record of ten derived numeric
fields.  We embed the numeric fields as rationals (`ℚ`): the source
computes with `+`, `-`, `*`, `/` and `Math.pow` with a natural-number
exponent only, so every operation is exact field arithmetic.  Per the data
model, `loanTerm` is a whole number of years, so it is embedded as `ℕ` and
`Math.pow (1 + r) (loanTerm * 12)` becomes monoid `pow` with a natural
exponent.  Division in `ℚ` is total with `x / 0 = 0`; the one place the
source can divide by zero (the amortization denominator at zero interest
rate) is treated explicitly below.
-/

/-- Mirrors `MortgageInputs` from `src/types/mortgage.ts`.  All fields are
numeric; `loanTerm` is a whole number of years per the data model. -/
structure MortgageInputs where
  homePrice : ℚ
  downPayment : ℚ
  loanTerm : ℕ
  interestRate : ℚ
  propertyTax : ℚ
  homeInsurance : ℚ
  pmi : ℚ
  hoa : ℚ
  utilities : ℚ
  maintenance : ℚ
  deriving Repr, DecidableEq

/-- Mirrors `MortgageCalculation` from `src/types/mortgage.ts`. -/
structure MortgageCalculation where
  monthlyPrincipalAndInterest : ℚ
  monthlyPropertyTax : ℚ
  monthlyInsurance : ℚ
  monthlyPMI : ℚ
  monthlyHOA : ℚ
  monthlyUtilities : ℚ
  monthlyMaintenance : ℚ
  totalMonthlyPayment : ℚ
  totalLoanAmount : ℚ
  totalInterestPaid : ℚ
  deriving Repr, DecidableEq

/-- The monthly interest rate `interestRate / 100 / 12` computed on line 18
of `mortgageCalculator.ts`. -/
def monthlyInterestRate (inputs : MortgageInputs) : ℚ :=
  inputs.interestRate / 100 / 12

/-- The number of payments `loanTerm * 12` computed on line 19 of
`mortgageCalculator.ts`. -/
def numberOfPayments (inputs : MortgageInputs) : ℕ :=
  inputs.loanTerm * 12

/-- The denominator `(1 + monthlyInterestRate)^numberOfPayments - 1` of the
principal-and-interest division on line 24 of `mortgageCalculator.ts`. -/
def piDenominator (inputs : MortgageInputs) : ℚ :=
  (1 + monthlyInterestRate inputs) ^ numberOfPayments inputs - 1

/-- Embedding of `calculateMortgage` from `src/utils/mortgageCalculator.ts`,
line for line. -/
def calculateMortgage (inputs : MortgageInputs) : MortgageCalculation :=
  let loanAmount := inputs.homePrice - inputs.downPayment
  let monthlyInterestRate := inputs.interestRate / 100 / 12
  let numberOfPayments := inputs.loanTerm * 12
  let monthlyPrincipalAndInterest :=
    (loanAmount *
      (monthlyInterestRate * (1 + monthlyInterestRate) ^ numberOfPayments)) /
    ((1 + monthlyInterestRate) ^ numberOfPayments - 1)
  let monthlyPropertyTax := (inputs.propertyTax / 100 * inputs.homePrice) / 12
  let monthlyInsurance := inputs.homeInsurance / 12
  let monthlyPMI := (inputs.pmi / 100 * loanAmount) / 12
  let monthlyHOA := inputs.hoa
  let monthlyUtilities := inputs.utilities
  let monthlyMaintenance := inputs.maintenance
  let totalMonthlyPayment :=
    monthlyPrincipalAndInterest +
    monthlyPropertyTax +
    monthlyInsurance +
    monthlyPMI +
    monthlyHOA +
    monthlyUtilities +
    monthlyMaintenance
  let totalInterestPaid :=
    monthlyPrincipalAndInterest * (numberOfPayments : ℚ) - loanAmount
  { monthlyPrincipalAndInterest := monthlyPrincipalAndInterest
    monthlyPropertyTax := monthlyPropertyTax
    monthlyInsurance := monthlyInsurance
    monthlyPMI := monthlyPMI
    monthlyHOA := monthlyHOA
    monthlyUtilities := monthlyUtilities
    monthlyMaintenance := monthlyMaintenance
    totalMonthlyPayment := totalMonthlyPayment
    totalLoanAmount := loanAmount
    totalInterestPaid := totalInterestPaid }

/-- A loan with positive interest rate (1200% annual, so the monthly rate
is exactly 1) and a one-year term, used as a concrete evaluation point. -/
def sampleLoan : MortgageInputs :=
  { homePrice := 2, downPayment := 1, loanTerm := 1, interestRate := 1200,
    propertyTax := 0, homeInsurance := 0, pmi := 0, hoa := 0,
    utilities := 0, maintenance := 0 }

/-- The sample loan with a zero interest rate. -/
def zeroRateLoan : MortgageInputs :=
  { sampleLoan with interestRate := 0 }

/-- The sample loan with the interest rate doubled. -/
def sampleLoanHighRate : MortgageInputs :=
  { sampleLoan with interestRate := 2400 }

/-- A loan fully covered by the down payment. -/
def fullyPaidLoan : MortgageInputs :=
  { homePrice := 5, downPayment := 5, loanTerm := 30, interestRate := 1200,
    propertyTax := 1, homeInsurance := 1, pmi := 1, hoa := 1,
    utilities := 1, maintenance := 1 }

/-- A loan fully covered by the down payment, at the low interest rate. -/
def fullyPaidLowRate : MortgageInputs :=
  { homePrice := 100, downPayment := 100, loanTerm := 1, interestRate := 1200,
    propertyTax := 0, homeInsurance := 0, pmi := 0, hoa := 0,
    utilities := 0, maintenance := 0 }

/-- The same fully-paid loan with the interest rate doubled. -/
def fullyPaidHighRate : MortgageInputs :=
  { fullyPaidLowRate with interestRate := 2400 }

/-- A loan with a zero PMI rate and no down payment. -/
def noPMILoanSmallDown : MortgageInputs :=
  { homePrice := 2, downPayment := 0, loanTerm := 1, interestRate := 1200,
    propertyTax := 0, homeInsurance := 0, pmi := 0, hoa := 0,
    utilities := 0, maintenance := 0 }

/-- The same zero-PMI loan with a larger down payment. -/
def noPMILoanLargeDown : MortgageInputs :=
  { noPMILoanSmallDown with downPayment := 1 }

/-- A loan with a positive PMI rate and no down payment. -/
def insuredLoanSmallDown : MortgageInputs :=
  { homePrice := 2, downPayment := 0, loanTerm := 1, interestRate := 1200,
    propertyTax := 0, homeInsurance := 0, pmi := 1, hoa := 0,
    utilities := 0, maintenance := 0 }

/-- The same insured loan with a larger down payment. -/
def insuredLoanLargeDown : MortgageInputs :=
  { insuredLoanSmallDown with downPayment := 1 }

/-- Sanity check against the worked example in the spec, §8:
`homePrice = 300000, downPayment = 60000` gives `totalLoanAmount = 240000`,
`monthlyPropertyTax = 300`, `monthlyInsurance = 100`, `monthlyPMI = 100`. -/
example :
    (calculateMortgage
      { homePrice := 300000, downPayment := 60000, loanTerm := 30,
        interestRate := 7/2, propertyTax := 6/5, homeInsurance := 1200,
        pmi := 1/2, hoa := 250, utilities := 200,
        maintenance := 200 }).totalLoanAmount = 240000 := by
  norm_num [calculateMortgage]

/-- Unfolding lemma for the principal-and-interest field (lines 21-24 of the
source). -/
lemma monthlyPI_def (inputs : MortgageInputs) :
    (calculateMortgage inputs).monthlyPrincipalAndInterest =
      (inputs.homePrice - inputs.downPayment) *
        (inputs.interestRate / 100 / 12 *
          (1 + inputs.interestRate / 100 / 12) ^ (inputs.loanTerm * 12)) /
      ((1 + inputs.interestRate / 100 / 12) ^ (inputs.loanTerm * 12) - 1) :=
  rfl

/-- Unfolding lemma for the loan amount (lines 17 and 54 of the source). -/
lemma totalLoanAmount_def (inputs : MortgageInputs) :
    (calculateMortgage inputs).totalLoanAmount =
      inputs.homePrice - inputs.downPayment :=
  rfl

/-- Unfolding lemma for the PMI field (line 28 of the source). -/
lemma monthlyPMI_def (inputs : MortgageInputs) :
    (calculateMortgage inputs).monthlyPMI =
      inputs.pmi / 100 * (inputs.homePrice - inputs.downPayment) / 12 :=
  rfl

/-- Unfolding lemma for the total interest field (lines 42-43 of the
source). -/
lemma totalInterestPaid_def (inputs : MortgageInputs) :
    (calculateMortgage inputs).totalInterestPaid =
      (calculateMortgage inputs).monthlyPrincipalAndInterest *
          ((inputs.loanTerm * 12 : ℕ) : ℚ) -
        (inputs.homePrice - inputs.downPayment) :=
  rfl

/-- Geometric-sum factorization of the amortization denominator:
`(1+r)^n - 1 = (∑ k < n, (1+r)^k) * r`. -/
lemma pow_sub_one_eq_geomSum_mul (r : ℚ) (n : ℕ) :
    (1 + r) ^ n - 1 = (∑ k ∈ Finset.range n, (1 + r) ^ k) * r := by
  rw [← geom_sum_mul (1 + r) n]
  ring

/-- Cross-multiplied core of the annuity-factor monotonicity: for
`0 < r₁ < r₂` and `n ≥ 1`,
`(1+r₁)^n * ∑ k < n, (1+r₂)^k < (1+r₂)^n * ∑ k < n, (1+r₁)^k`. -/
lemma pow_mul_geomSum_lt (r₁ r₂ : ℚ) (n : ℕ)
    (h₁ : 0 < r₁) (h₁₂ : r₁ < r₂) (hn : n ≠ 0) :
    (1 + r₁) ^ n * ∑ k ∈ Finset.range n, (1 + r₂) ^ k <
      (1 + r₂) ^ n * ∑ k ∈ Finset.range n, (1 + r₁) ^ k := by
  rw [Finset.mul_sum, Finset.mul_sum]
  refine Finset.sum_lt_sum_of_nonempty (Finset.nonempty_range_iff.mpr hn) ?_
  intro k hk
  have hkn : k < n := Finset.mem_range.mp hk
  have hx₁ : (0 : ℚ) < 1 + r₁ := by linarith
  have hlt : 1 + r₁ < 1 + r₂ := by linarith
  have hkeq : k + (n - k) = n := Nat.add_sub_cancel' hkn.le
  have e₁ : (1 + r₁) ^ n = (1 + r₁) ^ k * (1 + r₁) ^ (n - k) := by
    rw [← pow_add, hkeq]
  have e₂ : (1 + r₂) ^ n = (1 + r₂) ^ k * (1 + r₂) ^ (n - k) := by
    rw [← pow_add, hkeq]
  have hpow : (1 + r₁) ^ (n - k) < (1 + r₂) ^ (n - k) :=
    pow_lt_pow_left₀ hlt hx₁.le (by omega)
  calc (1 + r₁) ^ n * (1 + r₂) ^ k
      = (1 + r₁) ^ k * (1 + r₂) ^ k * (1 + r₁) ^ (n - k) := by rw [e₁]; ring
    _ < (1 + r₁) ^ k * (1 + r₂) ^ k * (1 + r₂) ^ (n - k) := by
        apply mul_lt_mul_of_pos_left hpow
        have hx₂ : (0 : ℚ) < 1 + r₂ := by linarith
        positivity
    _ = (1 + r₂) ^ n * (1 + r₁) ^ k := by rw [e₂]; ring

/-- The annuity payment factor `r (1+r)^n / ((1+r)^n - 1)` is strictly
increasing in the per-period rate `r` on `r > 0`, for any term `n ≥ 1`. -/
lemma annuityFactor_lt (r₁ r₂ : ℚ) (n : ℕ)
    (h₁ : 0 < r₁) (h₁₂ : r₁ < r₂) (hn : n ≠ 0) :
    r₁ * (1 + r₁) ^ n / ((1 + r₁) ^ n - 1) <
      r₂ * (1 + r₂) ^ n / ((1 + r₂) ^ n - 1) := by
  have h₂ : 0 < r₂ := h₁.trans h₁₂
  have hx₁ : (1 : ℚ) < 1 + r₁ := by linarith
  have hx₂ : (1 : ℚ) < 1 + r₂ := by linarith
  have hd₁ : (0 : ℚ) < (1 + r₁) ^ n - 1 := sub_pos.mpr (one_lt_pow₀ hx₁ hn)
  have hd₂ : (0 : ℚ) < (1 + r₂) ^ n - 1 := sub_pos.mpr (one_lt_pow₀ hx₂ hn)
  rw [div_lt_div_iff₀ hd₁ hd₂, pow_sub_one_eq_geomSum_mul r₁ n,
    pow_sub_one_eq_geomSum_mul r₂ n]
  have key := pow_mul_geomSum_lt r₁ r₂ n h₁ h₁₂ hn
  have main := mul_lt_mul_of_pos_left key (mul_pos h₁ h₂)
  calc r₁ * (1 + r₁) ^ n * ((∑ k ∈ Finset.range n, (1 + r₂) ^ k) * r₂)
      = r₁ * r₂ * ((1 + r₁) ^ n * ∑ k ∈ Finset.range n, (1 + r₂) ^ k) := by
        ring
    _ < r₁ * r₂ * ((1 + r₂) ^ n * ∑ k ∈ Finset.range n, (1 + r₁) ^ k) := main
    _ = r₂ * (1 + r₂) ^ n * ((∑ k ∈ Finset.range n, (1 + r₁) ^ k) * r₁) := by
        ring

/-- The annuity payment factor is positive when the per-period rate is
positive and the term is at least one payment. -/
lemma annuityFactor_pos (r : ℚ) (n : ℕ) (hr : 0 < r) (hn : n ≠ 0) :
    0 < r * (1 + r) ^ n / ((1 + r) ^ n - 1) := by
  have hx : (1 : ℚ) < 1 + r := by linarith
  have hd : (0 : ℚ) < (1 + r) ^ n - 1 := sub_pos.mpr (one_lt_pow₀ hx hn)
  have hnum : (0 : ℚ) < r * (1 + r) ^ n := by positivity
  exact div_pos hnum hd

/-- C1: for every input with `interestRate > 0` and `loanTerm >= 1`, the
denominator `(1+monthlyRate)^numPayments - 1` of the principal-and-interest
division is nonzero (the division-by-zero branch is unreachable), while for
`monthlyRate = 0` that denominator equals `0` (so the division falls
outside the domain of exact division). -/
theorem piDenominator_nonzero_or_zero (inputs : MortgageInputs) :
    (0 < inputs.interestRate → 1 ≤ inputs.loanTerm →
      piDenominator inputs ≠ 0) ∧
    (monthlyInterestRate inputs = 0 → piDenominator inputs = 0) := by
  constructor
  · intro hr ht
    have hm : 0 < monthlyInterestRate inputs := by
      unfold monthlyInterestRate; positivity
    have hx : (1 : ℚ) < 1 + monthlyInterestRate inputs := by linarith
    have hn : numberOfPayments inputs ≠ 0 := by
      unfold numberOfPayments; omega
    have hpow : (1 : ℚ) <
        (1 + monthlyInterestRate inputs) ^ numberOfPayments inputs :=
      one_lt_pow₀ hx hn
    unfold piDenominator
    exact sub_ne_zero.mpr (ne_of_gt hpow)
  · intro h
    unfold piDenominator
    rw [h]
    simp

/-- Witness for C1: the denominator is nonzero at a concrete positive-rate
loan and zero at the same loan with a zero interest rate. -/
theorem piDenominator_nonzero_or_zero_witness :
    piDenominator sampleLoan ≠ 0 ∧ piDenominator zeroRateLoan = 0 :=
  ⟨(piDenominator_nonzero_or_zero sampleLoan).1 (by norm_num [sampleLoan])
      (by norm_num [sampleLoan]),
   (piDenominator_nonzero_or_zero zeroRateLoan).2
      (by norm_num [zeroRateLoan, sampleLoan, monthlyInterestRate])⟩

/-- C2: for every input, `monthlyPrincipalAndInterest` equals the standard
amortization formula
`loanAmount * (monthlyRate * (1+monthlyRate)^numPayments) /
 ((1+monthlyRate)^numPayments - 1)` with
`loanAmount = homePrice - downPayment`, `monthlyRate = interestRate/100/12`
and `numPayments = loanTerm * 12`. -/
theorem monthlyPI_eq_amortization_formula (inputs : MortgageInputs) :
    (calculateMortgage inputs).monthlyPrincipalAndInterest =
      (inputs.homePrice - inputs.downPayment) *
        (inputs.interestRate / 100 / 12 *
          (1 + inputs.interestRate / 100 / 12) ^ (inputs.loanTerm * 12)) /
      ((1 + inputs.interestRate / 100 / 12) ^ (inputs.loanTerm * 12) - 1) :=
  monthlyPI_def inputs

/-- C3: for every input, `totalMonthlyPayment` equals the exact sum of the
seven monthly component fields of the same result. -/
theorem totalMonthlyPayment_eq_sum_of_components (inputs : MortgageInputs) :
    (calculateMortgage inputs).totalMonthlyPayment =
      (calculateMortgage inputs).monthlyPrincipalAndInterest +
      (calculateMortgage inputs).monthlyPropertyTax +
      (calculateMortgage inputs).monthlyInsurance +
      (calculateMortgage inputs).monthlyPMI +
      (calculateMortgage inputs).monthlyHOA +
      (calculateMortgage inputs).monthlyUtilities +
      (calculateMortgage inputs).monthlyMaintenance :=
  rfl

/-- C4: for every input, `totalLoanAmount` equals
`homePrice - downPayment`. -/
theorem totalLoanAmount_eq_price_minus_down (inputs : MortgageInputs) :
    (calculateMortgage inputs).totalLoanAmount =
      inputs.homePrice - inputs.downPayment :=
  totalLoanAmount_def inputs

/-- C5: for every input, the five non-amortization monthly components are
`propertyTax/100 * homePrice / 12`, `homeInsurance / 12`,
`pmi/100 * (homePrice - downPayment) / 12`, and the HOA, utilities and
maintenance inputs unchanged. -/
theorem nonAmortization_components_formulas (inputs : MortgageInputs) :
    (calculateMortgage inputs).monthlyPropertyTax =
        inputs.propertyTax / 100 * inputs.homePrice / 12 ∧
    (calculateMortgage inputs).monthlyInsurance = inputs.homeInsurance / 12 ∧
    (calculateMortgage inputs).monthlyPMI =
        inputs.pmi / 100 * (inputs.homePrice - inputs.downPayment) / 12 ∧
    (calculateMortgage inputs).monthlyHOA = inputs.hoa ∧
    (calculateMortgage inputs).monthlyUtilities = inputs.utilities ∧
    (calculateMortgage inputs).monthlyMaintenance = inputs.maintenance :=
  ⟨rfl, rfl, rfl, rfl, rfl, rfl⟩

/-- C6 counterexample: two inputs that agree on every field except
`interestRate`, both rates positive, yet the larger rate does not yield a
strictly larger `monthlyPrincipalAndInterest` (the loan amount is zero, so
both payments are zero). -/
theorem interestRate_mono_fails_on_zero_loan :
    0 < fullyPaidLowRate.interestRate ∧
    0 < fullyPaidHighRate.interestRate ∧
    fullyPaidLowRate.interestRate < fullyPaidHighRate.interestRate ∧
    fullyPaidLowRate.homePrice = fullyPaidHighRate.homePrice ∧
    fullyPaidLowRate.downPayment = fullyPaidHighRate.downPayment ∧
    fullyPaidLowRate.loanTerm = fullyPaidHighRate.loanTerm ∧
    fullyPaidLowRate.propertyTax = fullyPaidHighRate.propertyTax ∧
    fullyPaidLowRate.homeInsurance = fullyPaidHighRate.homeInsurance ∧
    fullyPaidLowRate.pmi = fullyPaidHighRate.pmi ∧
    fullyPaidLowRate.hoa = fullyPaidHighRate.hoa ∧
    fullyPaidLowRate.utilities = fullyPaidHighRate.utilities ∧
    fullyPaidLowRate.maintenance = fullyPaidHighRate.maintenance ∧
    ¬ (calculateMortgage fullyPaidLowRate).monthlyPrincipalAndInterest <
        (calculateMortgage fullyPaidHighRate).monthlyPrincipalAndInterest := by
  norm_num [fullyPaidLowRate, fullyPaidHighRate, calculateMortgage]

/-- C6 amended: on inputs that agree on every field except `interestRate`,
with both rates positive, a strictly positive loan amount
(`downPayment < homePrice`) and a term of at least one year, the larger
interest rate yields a strictly larger `monthlyPrincipalAndInterest`. -/
theorem monthlyPI_strictMono_in_interestRate (i j : MortgageInputs)
    (hp : i.homePrice = j.homePrice) (hd : i.downPayment = j.downPayment)
    (ht : i.loanTerm = j.loanTerm) (_hpt : i.propertyTax = j.propertyTax)
    (_hins : i.homeInsurance = j.homeInsurance) (_hpmi : i.pmi = j.pmi)
    (_hhoa : i.hoa = j.hoa) (_hut : i.utilities = j.utilities)
    (_hmt : i.maintenance = j.maintenance)
    (hr : 0 < i.interestRate) (hrr : i.interestRate < j.interestRate)
    (hdp : i.downPayment < i.homePrice) (hterm : 1 ≤ i.loanTerm) :
    (calculateMortgage i).monthlyPrincipalAndInterest <
      (calculateMortgage j).monthlyPrincipalAndInterest := by
  rw [monthlyPI_def, monthlyPI_def, ← hp, ← hd, ← ht]
  have hL : 0 < i.homePrice - i.downPayment := sub_pos.mpr hdp
  have hr₁ : 0 < i.interestRate / 100 / 12 := by positivity
  have hr₂ : i.interestRate / 100 / 12 < j.interestRate / 100 / 12 := by
    have h1 : i.interestRate / 100 < j.interestRate / 100 :=
      (div_lt_div_iff_of_pos_right (by norm_num)).mpr hrr
    exact (div_lt_div_iff_of_pos_right (by norm_num)).mpr h1
  have hn : i.loanTerm * 12 ≠ 0 := by omega
  have key := annuityFactor_lt _ _ (i.loanTerm * 12) hr₁ hr₂ hn
  have key2 := mul_lt_mul_of_pos_left key hL
  rw [← mul_div_assoc, ← mul_div_assoc] at key2
  exact key2

/-- Witness for the amended C6 at a concrete loan and its rate-doubled
variant. -/
theorem monthlyPI_strictMono_in_interestRate_witness :
    (calculateMortgage sampleLoan).monthlyPrincipalAndInterest <
      (calculateMortgage sampleLoanHighRate).monthlyPrincipalAndInterest :=
  monthlyPI_strictMono_in_interestRate sampleLoan sampleLoanHighRate
    rfl rfl rfl rfl rfl rfl rfl rfl rfl
    (by norm_num [sampleLoan]) (by norm_num [sampleLoan, sampleLoanHighRate])
    (by norm_num [sampleLoan]) (by norm_num [sampleLoan])

/-- C7 counterexample: two inputs that agree on every field except
`downPayment` (with a zero PMI rate), where the larger down payment does
not yield a strictly smaller `monthlyPMI`: both PMI components are zero. -/
theorem downPayment_mono_fails_on_zero_pmi :
    noPMILoanSmallDown.homePrice = noPMILoanLargeDown.homePrice ∧
    noPMILoanSmallDown.loanTerm = noPMILoanLargeDown.loanTerm ∧
    noPMILoanSmallDown.interestRate = noPMILoanLargeDown.interestRate ∧
    noPMILoanSmallDown.propertyTax = noPMILoanLargeDown.propertyTax ∧
    noPMILoanSmallDown.homeInsurance = noPMILoanLargeDown.homeInsurance ∧
    noPMILoanSmallDown.pmi = noPMILoanLargeDown.pmi ∧
    noPMILoanSmallDown.hoa = noPMILoanLargeDown.hoa ∧
    noPMILoanSmallDown.utilities = noPMILoanLargeDown.utilities ∧
    noPMILoanSmallDown.maintenance = noPMILoanLargeDown.maintenance ∧
    noPMILoanSmallDown.downPayment < noPMILoanLargeDown.downPayment ∧
    ¬ (calculateMortgage noPMILoanLargeDown).monthlyPMI <
        (calculateMortgage noPMILoanSmallDown).monthlyPMI := by
  norm_num [noPMILoanSmallDown, noPMILoanLargeDown, calculateMortgage]

/-- C7 amended: on inputs that agree on every field except `downPayment`,
with a strictly positive PMI rate, a strictly positive interest rate and a
term of at least one year, the larger down payment yields strictly smaller
`totalLoanAmount`, `monthlyPMI` and `monthlyPrincipalAndInterest`. -/
theorem downPayment_strict_antitone (i j : MortgageInputs)
    (hp : i.homePrice = j.homePrice) (ht : i.loanTerm = j.loanTerm)
    (hr : i.interestRate = j.interestRate)
    (_hpt : i.propertyTax = j.propertyTax)
    (_hins : i.homeInsurance = j.homeInsurance) (hpmi : i.pmi = j.pmi)
    (_hhoa : i.hoa = j.hoa) (_hut : i.utilities = j.utilities)
    (_hmt : i.maintenance = j.maintenance)
    (hd : i.downPayment < j.downPayment)
    (hpmiPos : 0 < i.pmi) (hrate : 0 < i.interestRate)
    (hterm : 1 ≤ i.loanTerm) :
    (calculateMortgage j).totalLoanAmount <
        (calculateMortgage i).totalLoanAmount ∧
    (calculateMortgage j).monthlyPMI < (calculateMortgage i).monthlyPMI ∧
    (calculateMortgage j).monthlyPrincipalAndInterest <
        (calculateMortgage i).monthlyPrincipalAndInterest := by
  have hL : j.homePrice - j.downPayment < i.homePrice - i.downPayment := by
    rw [← hp]; linarith
  refine ⟨?_, ?_, ?_⟩
  · rw [totalLoanAmount_def, totalLoanAmount_def]
    exact hL
  · rw [monthlyPMI_def, monthlyPMI_def, ← hpmi]
    apply (div_lt_div_iff_of_pos_right (by norm_num : (0:ℚ) < 12)).mpr
    exact mul_lt_mul_of_pos_left hL (by positivity)
  · rw [monthlyPI_def, monthlyPI_def, ← hp, ← hr, ← ht]
    have hL' : i.homePrice - j.downPayment < i.homePrice - i.downPayment := by
      linarith
    have hr₁ : 0 < i.interestRate / 100 / 12 := by positivity
    have hn : i.loanTerm * 12 ≠ 0 := by omega
    have hF := annuityFactor_pos (i.interestRate / 100 / 12)
      (i.loanTerm * 12) hr₁ hn
    have key2 := mul_lt_mul_of_pos_right hL' hF
    rw [← mul_div_assoc, ← mul_div_assoc] at key2
    exact key2

/-- Witness for the amended C7 at a concrete insured loan and its
larger-down-payment variant. -/
theorem downPayment_strict_antitone_witness :
    (calculateMortgage insuredLoanLargeDown).totalLoanAmount <
        (calculateMortgage insuredLoanSmallDown).totalLoanAmount ∧
    (calculateMortgage insuredLoanLargeDown).monthlyPMI <
        (calculateMortgage insuredLoanSmallDown).monthlyPMI ∧
    (calculateMortgage insuredLoanLargeDown).monthlyPrincipalAndInterest <
        (calculateMortgage insuredLoanSmallDown).monthlyPrincipalAndInterest :=
  downPayment_strict_antitone insuredLoanSmallDown insuredLoanLargeDown
    rfl rfl rfl rfl rfl rfl rfl rfl rfl
    (by norm_num [insuredLoanSmallDown, insuredLoanLargeDown])
    (by norm_num [insuredLoanSmallDown])
    (by norm_num [insuredLoanSmallDown])
    (by norm_num [insuredLoanSmallDown])

/-- C8: for every input with `downPayment = homePrice`, the loan amount is
`0`, hence `monthlyPrincipalAndInterest`, `monthlyPMI` and
`totalInterestPaid` are all `0`. -/
theorem fullDownPayment_degenerate (inputs : MortgageInputs)
    (h : inputs.downPayment = inputs.homePrice) :
    (calculateMortgage inputs).totalLoanAmount = 0 ∧
    (calculateMortgage inputs).monthlyPrincipalAndInterest = 0 ∧
    (calculateMortgage inputs).monthlyPMI = 0 ∧
    (calculateMortgage inputs).totalInterestPaid = 0 := by
  have hL : inputs.homePrice - inputs.downPayment = 0 := by
    rw [h]; ring
  refine ⟨?_, ?_, ?_, ?_⟩ <;> simp [calculateMortgage, hL]

/-- Witness for C8 at a concrete fully-paid loan. -/
theorem fullDownPayment_degenerate_witness :
    (calculateMortgage fullyPaidLoan).totalLoanAmount = 0 ∧
    (calculateMortgage fullyPaidLoan).monthlyPrincipalAndInterest = 0 ∧
    (calculateMortgage fullyPaidLoan).monthlyPMI = 0 ∧
    (calculateMortgage fullyPaidLoan).totalInterestPaid = 0 :=
  fullDownPayment_degenerate fullyPaidLoan (by norm_num [fullyPaidLoan])

/-- C9: `calculateMortgage` is a pure function: any two calls on equal
inputs return equal `MortgageCalculation` values. -/
theorem calculateMortgage_deterministic (i j : MortgageInputs) (h : i = j) :
    calculateMortgage i = calculateMortgage j := by
  rw [h]

/-- Witness for C9 at a concrete input. -/
theorem calculateMortgage_deterministic_witness :
    calculateMortgage
        { homePrice := 2, downPayment := 1, loanTerm := 1,
          interestRate := 1200, propertyTax := 0, homeInsurance := 0,
          pmi := 0, hoa := 0, utilities := 0, maintenance := 0 } =
      calculateMortgage
        { homePrice := 2, downPayment := 1, loanTerm := 1,
          interestRate := 1200, propertyTax := 0, homeInsurance := 0,
          pmi := 0, hoa := 0, utilities := 0, maintenance := 0 } :=
  calculateMortgage_deterministic _ _ rfl

/-- C10: for every input with a positive interest rate, a term of at least
one year and `0 ≤ downPayment ≤ homePrice`, the `totalInterestPaid` field
is non-negative: the amortized monthly payment times the number of payments
is at least the loan amount. -/
theorem totalInterestPaid_nonneg (i : MortgageInputs)
    (hr : 0 < i.interestRate) (hterm : 1 ≤ i.loanTerm)
    (_hd0 : 0 ≤ i.downPayment) (hdp : i.downPayment ≤ i.homePrice) :
    0 ≤ (calculateMortgage i).totalInterestPaid := by
  have hr₁ : 0 < i.interestRate / 100 / 12 := by positivity
  have hx : (1 : ℚ) < 1 + i.interestRate / 100 / 12 := by linarith
  have hn : i.loanTerm * 12 ≠ 0 := by omega
  have hD : (0 : ℚ) <
      (1 + i.interestRate / 100 / 12) ^ (i.loanTerm * 12) - 1 :=
    sub_pos.mpr (one_lt_pow₀ hx hn)
  have hL : 0 ≤ i.homePrice - i.downPayment := sub_nonneg.mpr hdp
  rw [totalInterestPaid_def, monthlyPI_def, sub_nonneg,
    div_mul_eq_mul_div, le_div_iff₀ hD, pow_sub_one_eq_geomSum_mul]
  have hS : (∑ k ∈ Finset.range (i.loanTerm * 12),
        (1 + i.interestRate / 100 / 12) ^ k) ≤
      ((i.loanTerm * 12 : ℕ) : ℚ) *
        (1 + i.interestRate / 100 / 12) ^ (i.loanTerm * 12) := by
    calc (∑ k ∈ Finset.range (i.loanTerm * 12),
          (1 + i.interestRate / 100 / 12) ^ k)
        ≤ ∑ _k ∈ Finset.range (i.loanTerm * 12),
            (1 + i.interestRate / 100 / 12) ^ (i.loanTerm * 12) :=
          Finset.sum_le_sum fun k hk =>
            pow_le_pow_right₀ hx.le (Finset.mem_range.mp hk).le
      _ = ((i.loanTerm * 12 : ℕ) : ℚ) *
            (1 + i.interestRate / 100 / 12) ^ (i.loanTerm * 12) := by
          rw [Finset.sum_const, Finset.card_range, nsmul_eq_mul]
  calc (i.homePrice - i.downPayment) *
        ((∑ k ∈ Finset.range (i.loanTerm * 12),
            (1 + i.interestRate / 100 / 12) ^ k) *
          (i.interestRate / 100 / 12))
      = ((i.homePrice - i.downPayment) * (i.interestRate / 100 / 12)) *
          (∑ k ∈ Finset.range (i.loanTerm * 12),
            (1 + i.interestRate / 100 / 12) ^ k) := by ring
    _ ≤ ((i.homePrice - i.downPayment) * (i.interestRate / 100 / 12)) *
          (((i.loanTerm * 12 : ℕ) : ℚ) *
            (1 + i.interestRate / 100 / 12) ^ (i.loanTerm * 12)) := by
        apply mul_le_mul_of_nonneg_left hS
        exact mul_nonneg hL hr₁.le
    _ = (i.homePrice - i.downPayment) *
          (i.interestRate / 100 / 12 *
            (1 + i.interestRate / 100 / 12) ^ (i.loanTerm * 12)) *
          ((i.loanTerm * 12 : ℕ) : ℚ) := by ring

/-- Witness for C10 at a concrete loan. -/
theorem totalInterestPaid_nonneg_witness :
    0 ≤ (calculateMortgage sampleLoan).totalInterestPaid :=
  totalInterestPaid_nonneg sampleLoan (by norm_num [sampleLoan])
    (by norm_num [sampleLoan]) (by norm_num [sampleLoan])
    (by norm_num [sampleLoan])
